import Mathlib

/-!
Verification of the pipeline-topology builder in `src/CdkPipelineStack.py`.

The repository declares a fixed cloud deployment pipeline (CodeCommit source,
CodeBuild project, CodePipeline orchestration, S3 artifact bucket) through the
AWS CDK.  The builder is pure configuration assembly: three template parameters
feed a fixed set of resource declarations and permission grants.  We embed the
builder shallowly as a pure function from the three parameter values to a
`Topology` record whose fields mirror, constructor argument by constructor
argument, the Python source.  Deferred CDK tokens (`value_as_string`,
`bucket_arn`) are resolved to the strings they stand for in the synthesized
template: `value_as_string` is the supplied parameter value and `bucket_arn`
is `arn:aws:s3:::<bucketName>`.
-/

namespace CdkPipeline

/-- Effect of an IAM policy statement, as in `iam.Effect`. -/
inductive Effect
  | allow
  | deny
deriving DecidableEq, BEq

/-- Principal of an IAM policy statement: `iam.AnyPrincipal()` or
`iam.ServicePrincipal(service)`. -/
inductive Principal
  | anyPrincipal
  | servicePrincipal (service : String)
deriving DecidableEq, BEq

/-- An `iam.PolicyStatement`. Conditions are an operator keyed map of
key/value string pairs, as in the Python keyword argument. -/
structure PolicyStatement where
  actions : List String
  resources : List String
  conditions : List (String × List (String × String))
  effect : Effect
  principals : List Principal
deriving DecidableEq, BEq

/-- A CloudFormation template parameter declaration (`CfnParameter`).
No `default=` keyword appears in the source, so `paramDefault` is `none`
for all three declared parameters. -/
structure CfnParameter where
  logicalId : String
  type : String
  description : String
  paramDefault : Option String
deriving DecidableEq, BEq

/-- `s3.BucketEncryption` values used by the stack. -/
inductive BucketEncryption
  | s3Managed
  | kms
deriving DecidableEq, BEq

/-- `RemovalPolicy` values used by the stack. -/
inductive RemovalPolicy
  | destroy
  | retain
deriving DecidableEq, BEq

/-- The `s3.Bucket` declaration together with the statements added to its
resource policy via `add_to_resource_policy`. -/
structure Bucket where
  logicalId : String
  bucketName : String
  encryption : BucketEncryption
  removalPolicy : RemovalPolicy
  resourcePolicy : List PolicyStatement
deriving DecidableEq, BEq

/-- A `codecommit.Repository` declaration. -/
structure Repository where
  logicalId : String
  repositoryName : String
deriving DecidableEq, BEq

/-- An `iam.Role` declaration: trust principal, managed policy names, and
named inline policy documents (each a list of statements). -/
structure Role where
  logicalId : String
  assumedBy : Principal
  managedPolicies : List String
  inlinePolicies : List (String × List PolicyStatement)
deriving DecidableEq, BEq

/-- The `codebuild.Artifacts.s3(...)` configuration of the build project. -/
structure S3Artifacts where
  bucket : Bucket
  includeBuildId : Bool
  packageZip : Bool
  path : String
  identifier : String
  encryption : Bool
deriving DecidableEq, BEq

/-- The `codebuild.Project` declaration. -/
structure BuildProject where
  logicalId : String
  projectName : String
  role : Role
  buildImage : String
  computeType : String
  sourceRepo : Repository
  artifacts : S3Artifacts
deriving DecidableEq, BEq

/-- A pipeline action: `CodeCommitSourceAction` or `CodeBuildAction`, with
the artifact names they produce and consume. -/
inductive Action
  | codeCommitSource (actionName : String) (repo : Repository)
      (branch : String) (output : String)
  | codeBuild (actionName : String) (project : BuildProject)
      (input : String) (outputs : List String)
deriving DecidableEq, BEq

/-- Artifact names produced by an action. -/
def Action.outputArtifacts : Action → List String
  | .codeCommitSource _ _ _ out => [out]
  | .codeBuild _ _ _ outs => outs

/-- Artifact names consumed by an action. -/
def Action.inputArtifacts : Action → List String
  | .codeCommitSource _ _ _ _ => []
  | .codeBuild _ _ inp _ => [inp]

/-- A `codepipeline.StageProps` declaration. -/
structure StageProps where
  stageName : String
  actions : List Action
deriving DecidableEq, BEq

/-- The `codepipeline.Pipeline` declaration. -/
structure Pipeline where
  logicalId : String
  pipelineName : String
  role : Role
  artifactBucket : Bucket
  stages : List StageProps
deriving DecidableEq, BEq

/-- The full topology produced by one run of the stack constructor: the
parameter declarations, the four resource declarations and the two roles. -/
structure Topology where
  parameters : List CfnParameter
  artifactBucket : Bucket
  repository : Repository
  buildProjectRole : Role
  buildProject : BuildProject
  pipelineRole : Role
  pipeline : Pipeline
deriving DecidableEq, BEq

/-- The ARN of a bucket, as `bucket_arn` resolves in the template. -/
def bucketArn (b : Bucket) : String :=
  "arn:aws:s3:::" ++ b.bucketName

/-- The ARN of the object stored under `key` in bucket `b`. -/
def objectArn (b : Bucket) (key : String) : String :=
  bucketArn b ++ "/" ++ key

/-- The `projectUrl` parameter declaration (source lines 21-23). -/
def projectUrlParam : CfnParameter :=
  { logicalId := "projectUrl"
    type := "String"
    description := "My software pipeline delivery template using Cloudformation and CodeCommit"
    paramDefault := none }

/-- The `S3BucketName` parameter declaration (source lines 25-27). -/
def s3BucketNameParam : CfnParameter :=
  { logicalId := "S3BucketName"
    type := "String"
    description := "S3 bucket name for storing artifacts"
    paramDefault := none }

/-- The `RepositoryName` parameter declaration (source lines 29-31). -/
def repositoryNameParam : CfnParameter :=
  { logicalId := "RepositoryName"
    type := "String"
    description := "CodeCommit repository name"
    paramDefault := none }

/-- Shallow embedding of `CdkPipelineStack.__init__`: given the resolved
values of the three template parameters, build the declared topology.  Every
field below transcribes the corresponding Python constructor argument
(source lines 21-123); local names match the Python local variables. -/
def CdkPipelineStack (project_url s3_bucket_name repository_name : String) :
    Topology :=
  let artifact_bucket0 : Bucket :=
    { logicalId := "ArtifactBucket"
      bucketName := s3_bucket_name
      encryption := BucketEncryption.s3Managed
      removalPolicy := RemovalPolicy.destroy
      resourcePolicy := [] }
  let deny_statement : PolicyStatement :=
    { actions := ["s3:PutObject"]
      resources := [bucketArn artifact_bucket0 ++ "/*"]
      conditions := [("StringNotEquals",
        [("s3:x-amz-server-side-encryption", "aws:kms")])]
      effect := Effect.deny
      principals := [Principal.anyPrincipal] }
  let artifact_bucket : Bucket :=
    { artifact_bucket0 with
      resourcePolicy := artifact_bucket0.resourcePolicy ++ [deny_statement] }
  let repository : Repository :=
    { logicalId := "JavaProjectRepository"
      repositoryName := repository_name }
  let build_project_role : Role :=
    { logicalId := "AppBuildRole"
      assumedBy := Principal.servicePrincipal "codebuild.amazonaws.com"
      managedPolicies := ["AmazonS3ReadOnlyAccess"]
      inlinePolicies :=
        [("CodeBuildAccess",
          [{ actions := ["s3:PutObject", "s3:GetObject", "s3:GetObjectVersion",
                         "s3:GetBucketAcl", "s3:GetBucketLocation"]
             resources := ["arn:aws:s3:::" ++ s3_bucket_name,
                           "arn:aws:s3:::" ++ s3_bucket_name ++ "/*"]
             conditions := []
             effect := Effect.allow
             principals := [] }])] }
  let build_project : BuildProject :=
    { logicalId := "AppBuildProject"
      projectName := "AppBuildProject"
      role := build_project_role
      buildImage := "STANDARD_5_0"
      computeType := "SMALL"
      sourceRepo := repository
      artifacts :=
        { bucket := artifact_bucket
          includeBuildId := false
          packageZip := true
          path := ""
          identifier := "BuildOutput"
          encryption := true } }
  let pipeline_role : Role :=
    { logicalId := "CodePipelineServiceRole"
      assumedBy := Principal.servicePrincipal "codepipeline.amazonaws.com"
      managedPolicies := ["AmazonS3ReadOnlyAccess"]
      inlinePolicies :=
        [("ec2codedeploy",
          [{ actions := ["s3:GetObject", "s3:GetBucketAcl", "s3:GetBucketLocation"]
             resources := [bucketArn artifact_bucket,
                           bucketArn artifact_bucket ++ "/*"]
             conditions := []
             effect := Effect.allow
             principals := [] }])] }
  let pipeline : Pipeline :=
    { logicalId := "AppPipeline"
      pipelineName := "AppPipeline"
      role := pipeline_role
      artifactBucket := artifact_bucket
      stages :=
        [{ stageName := "Source"
           actions := [Action.codeCommitSource "SourceAction" repository
             "master" "SourceOutput"] },
         { stageName := "Build"
           actions := [Action.codeBuild "BuildAction" build_project
             "SourceOutput" ["BuildOutput"]] }] }
  { parameters := [projectUrlParam, s3BucketNameParam, repositoryNameParam]
    artifactBucket := artifact_bucket
    repository := repository
    buildProjectRole := build_project_role
    buildProject := build_project
    pipelineRole := pipeline_role
    pipeline := pipeline }

/-- Glob matching of an IAM resource pattern against a string, on character
lists: a literal character matches itself and the wildcard character matches
any (possibly empty) run of characters.  Structural recursion on the
pattern. -/
def globMatch : List Char → List Char → Bool
  | [], s => s.isEmpty
  | c :: p, s =>
    if c = '*' then
      s.tails.any fun s2 => globMatch p s2
    else
      match s with
      | [] => false
      | d :: s2 => c == d && globMatch p s2

/-- Glob matching of an IAM resource pattern against a string. -/
def stringGlobMatch (pat s : String) : Bool :=
  globMatch pat.data s.data

/-- Evaluation of an IAM condition block against the request's
`s3:x-amz-server-side-encryption` context key (the only context key the
stack's statements mention).  `StringNotEquals` holds when the context key
is absent or differs from the required value. -/
def evalConditions (conds : List (String × List (String × String)))
    (sse : Option String) : Bool :=
  conds.all fun c =>
    match c.1 with
    | "StringNotEquals" =>
      c.2.all fun kv =>
        if kv.1 = "s3:x-amz-server-side-encryption" then
          match sse with
          | some v => v != kv.2
          | none => true
        else
          true
    | _ => false

/-- Whether a statement principal matches a requesting principal ARN:
`AnyPrincipal` matches everyone. -/
def principalMatches (p : Principal) (who : String) : Bool :=
  match p with
  | .anyPrincipal => true
  | .servicePrincipal s => s == who

/-- Whether a single policy statement denies `s3:PutObject` on the object
`key` of bucket `b` to principal `who` under server-side-encryption header
`sse`. -/
def statementDeniesPut (st : PolicyStatement) (b : Bucket) (who key : String)
    (sse : Option String) : Bool :=
  (st.effect == Effect.deny) &&
  st.actions.contains "s3:PutObject" &&
  (st.principals.any fun pr => principalMatches pr who) &&
  (st.resources.any fun pat => stringGlobMatch pat (objectArn b key)) &&
  evalConditions st.conditions sse

/-- Whether the bucket's resource policy denies `s3:PutObject` on object
`key` to principal `who` under server-side-encryption header `sse`. -/
def denies (b : Bucket) (who key : String) (sse : Option String) : Bool :=
  b.resourcePolicy.any fun st => statementDeniesPut st b who key sse

/-- Modelled from the spec: resolution of one declared template parameter
from the optionally supplied deployment value.  The resolution step lives in
the external deployment harness, not in `src/`; the spec requires that a
parameter declared with no default is mandatory, so resolution fails when no
value is supplied and no default exists. -/
def resolveParam (decl : CfnParameter) (supplied : Option String) :
    Except String String :=
  match supplied with
  | some v => Except.ok v
  | none =>
    match decl.paramDefault with
    | some d => Except.ok d
    | none => Except.error ("Missing required parameter " ++ decl.logicalId)

/-- Modelled from the spec: plan construction resolves all three declared
parameters first and only then builds the topology, so a missing required
parameter fails the whole run before any resource entity is created. -/
def planConstruction (project_url s3_bucket_name repository_name :
    Option String) : Except String Topology := do
  let u ← resolveParam projectUrlParam project_url
  let b ← resolveParam s3BucketNameParam s3_bucket_name
  let r ← resolveParam repositoryNameParam repository_name
  Except.ok (CdkPipelineStack u b r)

/-- Running plan construction twice with the same resolved parameter values,
as the spec's determinism property describes. -/
def runTwice (project_url s3_bucket_name repository_name : String) :
    Topology × Topology :=
  (CdkPipelineStack project_url s3_bucket_name repository_name,
   CdkPipelineStack project_url s3_bucket_name repository_name)

theorem globMatch_trailing_star (u v : List Char) :
    globMatch (u ++ ['*']) (u ++ v) = true := by
  induction u generalizing v with
  | nil =>
    have h0 : globMatch ['*'] v = v.tails.any fun s2 => globMatch [] s2 := rfl
    rw [List.nil_append, List.nil_append, h0, List.any_eq_true]
    refine ⟨[], ?_, rfl⟩
    rw [List.mem_tails]
    exact List.nil_suffix
  | cons c u ih =>
    have h0 : globMatch (c :: (u ++ ['*'])) (c :: (u ++ v)) =
        if c = '*' then
          ((c :: (u ++ v)).tails.any fun s2 => globMatch (u ++ ['*']) s2)
        else (c == c && globMatch (u ++ ['*']) (u ++ v)) := rfl
    rw [List.cons_append, List.cons_append, h0]
    by_cases hc : c = '*'
    · rw [if_pos hc, List.any_eq_true]
      refine ⟨u ++ v, ?_, ih v⟩
      rw [List.mem_tails]
      exact List.suffix_cons c (u ++ v)
    · rw [if_neg hc]
      simp [ih v]

theorem stringGlobMatch_trailing_star (x v : String) :
    stringGlobMatch (x ++ "*") (x ++ v) = true := by
  show globMatch (x.data ++ ['*']) (x.data ++ v.data) = true
  exact globMatch_trailing_star x.data v.data

theorem string_append_star_assoc (a : String) :
    a ++ "/*" = (a ++ "/") ++ "*" := by
  apply String.ext
  show a.data ++ ['/', '*'] = (a.data ++ ['/']) ++ ['*']
  simp

/-- The deny pattern `<bucket-arn>/*` matches the ARN of every object key of
the bucket. -/
theorem deny_pattern_matches_every_key (b : Bucket) (key : String) :
    stringGlobMatch (bucketArn b ++ "/*") (objectArn b key) = true := by
  rw [string_append_star_assoc]
  exact stringGlobMatch_trailing_star (bucketArn b ++ "/") key

/-- A bucket whose resource policy is exactly the stack's deny statement
denies `s3:PutObject` to every principal on every object key precisely when
the request's server-side-encryption header differs from `aws:kms` (or is
absent). -/
theorem denies_eq_not_kms (b : Bucket)
    (hpol : b.resourcePolicy =
      [{ actions := ["s3:PutObject"]
         resources := [bucketArn b ++ "/*"]
         conditions := [("StringNotEquals",
           [("s3:x-amz-server-side-encryption", "aws:kms")])]
         effect := Effect.deny
         principals := [Principal.anyPrincipal] }])
    (who key : String) (sse : Option String) :
    denies b who key sse = !(sse == some "aws:kms") := by
  have hconds : ∀ sse2 : Option String,
      evalConditions [("StringNotEquals",
        [("s3:x-amz-server-side-encryption", "aws:kms")])] sse2
        = !(sse2 == some "aws:kms") := by
    intro sse2
    cases sse2 with
    | none => rfl
    | some v => simp [evalConditions, bne]
  have h1 : (Effect.deny == Effect.deny) = true := rfl
  have h2 : (["s3:PutObject"].contains "s3:PutObject") = true := rfl
  have h3 : ([Principal.anyPrincipal].any fun pr => principalMatches pr who)
      = true := rfl
  have h4 : ([bucketArn b ++ "/*"].any fun pat =>
      stringGlobMatch pat (objectArn b key)) = true := by
    simp [deny_pattern_matches_every_key b key]
  unfold denies
  rw [hpol]
  simp only [List.any_cons, List.any_nil, Bool.or_false]
  unfold statementDeniesPut
  simp only [h1, h2, h3, h4, hconds, Bool.true_and, Bool.and_true]

/-- C1: the storage location's resource policy contains exactly one
statement; it is a DENY of `s3:PutObject` for any principal on the resource
pattern `<bucket-arn>/*` conditioned on `StringNotEquals` of the
`s3:x-amz-server-side-encryption` header against `aws:kms`; the bucket
policy denies the put to every principal on every object key exactly when
the request's header is not `aws:kms` (including an absent header), and the
resource pattern matches the ARN of every object key under the bucket
root. -/
theorem deny_statement_correct (u n r : String) :
    ((CdkPipelineStack u n r).artifactBucket.resourcePolicy =
      [{ actions := ["s3:PutObject"]
         resources := [bucketArn (CdkPipelineStack u n r).artifactBucket ++ "/*"]
         conditions := [("StringNotEquals",
           [("s3:x-amz-server-side-encryption", "aws:kms")])]
         effect := Effect.deny
         principals := [Principal.anyPrincipal] }]) ∧
    (∀ who key sse, denies (CdkPipelineStack u n r).artifactBucket who key sse
      = !(sse == some "aws:kms")) ∧
    (∀ key, stringGlobMatch
      (bucketArn (CdkPipelineStack u n r).artifactBucket ++ "/*")
      (objectArn (CdkPipelineStack u n r).artifactBucket key) = true) := by
  refine ⟨rfl, ?_, ?_⟩
  · intro who key sse
    exact denies_eq_not_kms _ rfl who key sse
  · intro key
    exact deny_pattern_matches_every_key _ key

/-- C2: the build role's inline grant and the pipeline role's inline grant
reference only the storage location named by the `S3BucketName` parameter
(the bucket ARN or its object-key pattern), and that is the same bucket
used as the build project's artifact output and as the pipeline's artifact
store. -/
theorem grants_reference_single_bucket (u n r : String) :
    ((CdkPipelineStack u n r).buildProject.artifacts.bucket =
      (CdkPipelineStack u n r).artifactBucket) ∧
    ((CdkPipelineStack u n r).pipeline.artifactBucket =
      (CdkPipelineStack u n r).artifactBucket) ∧
    ((CdkPipelineStack u n r).artifactBucket.bucketName = n) ∧
    (((CdkPipelineStack u n r).buildProjectRole.inlinePolicies ++
      (CdkPipelineStack u n r).pipelineRole.inlinePolicies).all fun ip =>
        ip.2.all fun st => st.resources.all fun res =>
          res == "arn:aws:s3:::" ++ n ||
          res == "arn:aws:s3:::" ++ n ++ "/*") = true := by
  refine ⟨rfl, rfl, rfl, ?_⟩
  simp [CdkPipelineStack, bucketArn]

/-- C3: omitting any of the three required parameters (all declared with no
default) makes plan construction fail before any resource entity is built:
no topology is returned. -/
theorem missing_parameter_fails (pu bn rn : Option String)
    (h : pu = none ∨ bn = none ∨ rn = none) :
    (planConstruction pu bn rn).toOption = none := by
  rcases h with h | h | h
  · subst h; rfl
  · subst h
    cases pu with
    | none => rfl
    | some u => rfl
  · subst h
    cases pu with
    | none => rfl
    | some u =>
      cases bn with
      | none => rfl
      | some b => rfl

/-- Witness for C3: omitting only the bucket-name parameter fails plan
construction. -/
theorem missing_parameter_fails_witness :
    (planConstruction (some "https://example.com/java-project") none
      (some "my-repo")).toOption = none :=
  missing_parameter_fails (some "https://example.com/java-project") none
    (some "my-repo") (Or.inr (Or.inl rfl))

/-- C4: the pipeline always has exactly the two stages Source then Build;
the Source stage's single action outputs the artifact "SourceOutput" and the
Build stage's single action consumes "SourceOutput" as input (and produces
"BuildOutput"). -/
theorem pipeline_two_stages (u n r : String) :
    ((CdkPipelineStack u n r).pipeline.stages =
      [{ stageName := "Source"
         actions := [Action.codeCommitSource "SourceAction"
           (CdkPipelineStack u n r).repository "master" "SourceOutput"] },
       { stageName := "Build"
         actions := [Action.codeBuild "BuildAction"
           (CdkPipelineStack u n r).buildProject "SourceOutput"
           ["BuildOutput"]] }]) ∧
    ((CdkPipelineStack u n r).pipeline.stages.map StageProps.stageName
      = ["Source", "Build"]) ∧
    ((CdkPipelineStack u n r).pipeline.stages.map
        (fun st => st.actions.map Action.outputArtifacts)
      = [[["SourceOutput"]], [["BuildOutput"]]]) ∧
    ((CdkPipelineStack u n r).pipeline.stages.map
        (fun st => st.actions.map Action.inputArtifacts)
      = [[[]], [["SourceOutput"]]]) :=
  ⟨rfl, rfl, rfl, rfl⟩

/-- C5: the build role carries exactly one managed policy
(`AmazonS3ReadOnlyAccess`) and exactly one inline policy with one ALLOW
statement whose actions are exactly put, get, get-version, get-acl and
get-location, scoped to the named bucket and its object keys. -/
theorem build_role_layers (u n r : String) :
    ((CdkPipelineStack u n r).buildProjectRole.managedPolicies
      = ["AmazonS3ReadOnlyAccess"]) ∧
    ((CdkPipelineStack u n r).buildProjectRole.inlinePolicies =
      [("CodeBuildAccess",
        [{ actions := ["s3:PutObject", "s3:GetObject", "s3:GetObjectVersion",
                       "s3:GetBucketAcl", "s3:GetBucketLocation"]
           resources := ["arn:aws:s3:::" ++ n, "arn:aws:s3:::" ++ n ++ "/*"]
           conditions := []
           effect := Effect.allow
           principals := [] }])]) :=
  ⟨rfl, rfl⟩

/-- C6: the pipeline role carries exactly one managed policy
(`AmazonS3ReadOnlyAccess`) and exactly one inline policy with one ALLOW
statement whose actions are exactly get-object, get-acl and get-location,
scoped to the artifact bucket; the inline statement grants no
`s3:PutObject`. -/
theorem pipeline_role_layers (u n r : String) :
    ((CdkPipelineStack u n r).pipelineRole.managedPolicies
      = ["AmazonS3ReadOnlyAccess"]) ∧
    ((CdkPipelineStack u n r).pipelineRole.inlinePolicies =
      [("ec2codedeploy",
        [{ actions := ["s3:GetObject", "s3:GetBucketAcl",
                       "s3:GetBucketLocation"]
           resources := [bucketArn (CdkPipelineStack u n r).artifactBucket,
             bucketArn (CdkPipelineStack u n r).artifactBucket ++ "/*"]
           conditions := []
           effect := Effect.allow
           principals := [] }])]) ∧
    (((CdkPipelineStack u n r).pipelineRole.inlinePolicies.map fun ip =>
        ip.2.map fun st => st.actions.contains "s3:PutObject")
      = [[false]]) :=
  ⟨rfl, rfl, rfl⟩

/-- C7: the build project takes the one declared repository as source and
the one declared bucket as artifact output, packaged as a single zip with
the build-id path segment suppressed, empty path (bucket root) and
encryption required. -/
theorem build_project_binding (u n r : String) :
    ((CdkPipelineStack u n r).buildProject.sourceRepo
      = (CdkPipelineStack u n r).repository) ∧
    ((CdkPipelineStack u n r).buildProject.artifacts =
      { bucket := (CdkPipelineStack u n r).artifactBucket
        includeBuildId := false
        packageZip := true
        path := ""
        identifier := "BuildOutput"
        encryption := true }) :=
  ⟨rfl, rfl⟩

/-- C8: the builder is deterministic: two runs with identical parameter
values produce identical topologies, and plan construction with all three
values supplied returns exactly the topology the builder computes from
them. -/
theorem builder_deterministic (u n r : String) :
    ((runTwice u n r).1 = (runTwice u n r).2) ∧
    (planConstruction (some u) (some n) (some r)
      = Except.ok (CdkPipelineStack u n r)) :=
  ⟨rfl, rfl⟩

/-- C9: the project URL parameter value is not used operationally: two runs
differing only in the project URL yield identical topologies (the parameter
declarations carry no value, so even the declaration list agrees). -/
theorem project_url_not_operational (u1 u2 n r : String) :
    CdkPipelineStack u1 n r = CdkPipelineStack u2 n r := rfl

/-- C10: the pipeline's artifact store is the very bucket used as the build
project's artifact output and targeted by the (single) resource-policy
DENY statement, and the build project's artifact identifier "BuildOutput"
equals the artifact name produced by the pipeline's Build stage. -/
theorem artifact_store_consistency (u n r : String) :
    ((CdkPipelineStack u n r).pipeline.artifactBucket
      = (CdkPipelineStack u n r).buildProject.artifacts.bucket) ∧
    ((CdkPipelineStack u n r).pipeline.artifactBucket
      = (CdkPipelineStack u n r).artifactBucket) ∧
    ((CdkPipelineStack u n r).artifactBucket.resourcePolicy.map
        PolicyStatement.effect = [Effect.deny]) ∧
    ((CdkPipelineStack u n r).artifactBucket.resourcePolicy.map
        PolicyStatement.resources
      = [[bucketArn (CdkPipelineStack u n r).artifactBucket ++ "/*"]]) ∧
    ((CdkPipelineStack u n r).buildProject.artifacts.identifier
      = "BuildOutput") ∧
    ((CdkPipelineStack u n r).pipeline.stages.map
        (fun st => st.actions.map Action.outputArtifacts)
      = [[["SourceOutput"]], [["BuildOutput"]]]) :=
  ⟨rfl, rfl, rfl, rfl, rfl, rfl⟩

end CdkPipeline
